import Mathlib

/-!
Verification of the Leit spaced-repetition engine against its specification.

The definitions below are a shallow embedding of the engine's source:

* the SM-2 scheduler (`qualityToSM2`, `updateSchedule`) from `server/index.js`;
* the answer evaluator (`normalizeText`, `levenshteinDistance`,
  `checkWordOrderMatch`, `isShortAnswerMatch`, `calculateSimilarity`,
  `evaluateAnswer`) from `src/utils/evaluator.ts`;
* the synonym resolver (`SYNONYMS`, the reverse lookup, `areSynonyms`,
  `arePhraseSynonyms`, `getSynonymSimilarity`) from `src/utils/synonyms.ts`.

JavaScript numbers are modelled as rationals (`ℚ`), nullable fields as
`Option`, and the one impure operation — the scheduler's internal
`dayjs()` clock read — as an explicit `clockNow` argument.
-/

set_option maxRecDepth 100000

namespace Leit

/-! ## SM-2 scheduler (`server/index.js`) -/

/-- Prior card scheduling state as read from storage.  The JS fields may be
null/undefined, modelled with `Option`; `updateSchedule` applies the
defaults `?? 2.5`, `?? 1`, `?? 0`. -/
structure Card where
  ease : Option ℚ
  interval_days : Option ℚ
  lapses : Option ℚ
deriving DecidableEq

/-- Updated card scheduling state returned by `updateSchedule`; `due_at` is
an epoch-millisecond timestamp. -/
structure Schedule where
  ease : ℚ
  interval_days : ℚ
  lapses : ℚ
  due_at : ℚ
deriving DecidableEq

/-- `qualityToSM2` from `server/index.js`: a switch mapping quality strings
to SM-2 numeric grades; the `"again"` case and the `default` case both
return 1. -/
def qualityToSM2 (quality : String) : ℚ :=
  if quality = "easy" then 5
  else if quality = "good" then 4
  else if quality = "hard" then 3
  else 1

/-- Models `dayjs(clockNow).add(d, "day")` on an epoch-millisecond clock
value: adding `d` days adds `d * 86400000` milliseconds. -/
def dayjsAddDays (clockNow d : ℚ) : ℚ := clockNow + d * 86400000

/-- `updateSchedule` from `server/index.js`.  The JS function takes only
`(card, qualityStr)`; it reads the global clock via `dayjs()` while
computing `due_at`, and that internal clock read is made explicit here as
the `clockNow` argument. -/
def updateSchedule (card : Card) (qualityStr : String) (clockNow : ℚ) : Schedule :=
  let q := qualityToSM2 qualityStr
  let ease0 := card.ease.getD 2.5
  let interval0 := card.interval_days.getD 1
  let lapses0 := card.lapses.getD 0
  let interval1 := if q < 3 then 1 else (if interval0 < 1 then 1 else interval0) * ease0
  let lapses1 := if q < 3 then lapses0 + 1 else lapses0
  let ease1 := ease0 + (0.1 - (5 - q) * (0.08 + (5 - q) * 0.02))
  let ease2 := if ease1 < 1.3 then 1.3 else ease1
  { ease := ease2, interval_days := interval1, lapses := lapses1,
    due_at := dayjsAddDays clockNow interval1 }

/-! ## String utilities shared by the evaluator and the synonym resolver -/

/-- JS regex `\w`: ASCII letters, digits and underscore. -/
def isWordChar (c : Char) : Bool := c.isAlphanum || c = '_'

/-- JS regex `\s`, restricted to the ASCII whitespace that occurs here. -/
def isSpaceChar (c : Char) : Bool := c = ' ' || c = '\t' || c = '\n' || c = '\r'

/-- JS `String.trim`: strip leading and trailing whitespace. -/
def jsTrim (s : String) : String :=
  String.mk (((s.data.dropWhile isSpaceChar).reverse.dropWhile isSpaceChar).reverse)

/-- JS `String.toLowerCase` on the ASCII inputs involved. -/
def jsToLower (s : String) : String := String.mk (s.data.map Char.toLower)

/-- JS `replace(/\s+/g, ' ')`: collapse every maximal run of whitespace to
one space.  The flag records whether the previous character was whitespace
(so that only the first character of a run emits the space). -/
def collapseWs : List Char → Bool → List Char
  | [], _ => []
  | c :: cs, inRun =>
    if isSpaceChar c then
      if inRun then collapseWs cs true else ' ' :: collapseWs cs true
    else c :: collapseWs cs false

/-- `normalizeText` from `evaluator.ts`: lowercase, trim, strip punctuation
(`replace(/[^\w\s]/g, '')`), collapse internal whitespace. -/
def normalizeText (text : String) : String :=
  String.mk (collapseWs
    (((jsTrim (jsToLower text)).data).filter (fun c => isWordChar c || isSpaceChar c))
    false)

/-- `normalizeForSynonym` from `synonyms.ts`: like `normalizeText` but the
stripping regex is `[^\w\s.]`, keeping periods for abbreviations. -/
def normalizeForSynonym (text : String) : String :=
  String.mk (collapseWs
    (((jsTrim (jsToLower text)).data).filter
      (fun c => isWordChar c || isSpaceChar c || c = '.'))
    false)

/-- JS `String.split(' ')`: split on every single space character, keeping
empty pieces (`"".split(' ')` is `[""]`). -/
def splitSp : List Char → List Char → List String
  | [], acc => [String.mk acc.reverse]
  | c :: cs, acc =>
    if c = ' ' then String.mk acc.reverse :: splitSp cs []
    else splitSp cs (c :: acc)

def jsSplit (s : String) : List String := splitSp s.data []

/-- JS default string comparison (`<=`): lexicographic on code units. -/
def lexLe : List Char → List Char → Bool
  | [], _ => true
  | _ :: _, [] => false
  | a :: as, b :: bs =>
    if a.toNat < b.toNat then true
    else if b.toNat < a.toNat then false
    else lexLe as bs

def strLe (a b : String) : Bool := lexLe a.data b.data

/-- JS `Array.sort()` on strings, as insertion sort under `strLe`. -/
def insertStr (s : String) : List String → List String
  | [] => [s]
  | t :: ts => if strLe s t then s :: t :: ts else t :: insertStr s ts

def sortStrs : List String → List String
  | [] => []
  | s :: ss => insertStr s (sortStrs ss)

def isPrefixChars : List Char → List Char → Bool
  | [], _ => true
  | _ :: _, [] => false
  | a :: as, b :: bs => a = b && isPrefixChars as bs

def isInfixChars (xs : List Char) : List Char → Bool
  | [] => xs.isEmpty
  | y :: ys => isPrefixChars xs (y :: ys) || isInfixChars xs ys

/-- JS `hay.includes(needle)`. -/
def jsIncludes (hay needle : String) : Bool := isInfixChars needle.data hay.data

/-- The inner cells of one row of `levenshteinDistance`'s matrix: walk
`str1` and the previous row together; `pPrev` is the diagonal cell,
`p` the cell above, `nPrev` the cell to the left in the current row. -/
def levRowGo (c2 : Char) : List Char → Nat → List Nat → Nat → List Nat
  | [], _, _, _ => []
  | _ :: _, _, [], _ => []
  | c1 :: cs, pPrev, p :: ps, nPrev =>
    let cur := min (min (nPrev + 1) (p + 1)) (pPrev + (if c1 = c2 then 0 else 1))
    cur :: levRowGo c2 cs p ps cur

/-- Row `j` of the matrix (for character `c2` of `str2`) from row `j-1`:
the first cell is `matrix[j][0] = j`. -/
def levRow (c2 : Char) (s1 : List Char) (prev : List Nat) (j : Nat) : List Nat :=
  j :: levRowGo c2 s1 (prev.headD 0) (prev.tailD []) j

def levRows (s1 : List Char) : List Char → List Nat → Nat → List Nat
  | [], prev, _ => prev
  | c2 :: rest, prev, j => levRows s1 rest (levRow c2 s1 prev j) (j + 1)

/-- `levenshteinDistance` from `evaluator.ts`: dynamic programming over a
`(str2.length+1) × (str1.length+1)` matrix whose row 0 is `0..str1.length`,
returning `matrix[str2.length][str1.length]`. -/
def levenshteinDistance (str1 str2 : String) : Nat :=
  (levRows str1.data str2.data (List.range (str1.data.length + 1)) 1).getLastD 0

/-! ## Synonym resolver (`src/utils/synonyms.ts`) -/

/-- The `SYNONYMS` table from `synonyms.ts`: canonical term → synonym list,
in source order. -/
def SYNONYMS : List (String × List String) := [
  ("0", ["zero", "nil", "none", "o"]),
  ("1", ["one", "i", "single", "first"]),
  ("2", ["two", "ii", "second", "pair", "couple"]),
  ("3", ["three", "iii", "third"]),
  ("4", ["four", "iv", "fourth"]),
  ("5", ["five", "v", "fifth"]),
  ("6", ["six", "vi", "sixth"]),
  ("7", ["seven", "vii", "seventh"]),
  ("8", ["eight", "viii", "eighth"]),
  ("9", ["nine", "ix", "ninth"]),
  ("10", ["ten", "x", "tenth"]),
  ("11", ["eleven", "xi", "eleventh"]),
  ("12", ["twelve", "xii", "twelfth", "dozen"]),
  ("100", ["hundred", "c"]),
  ("1000", ["thousand", "m", "k"]),
  ("usa", ["united states", "america", "us", "u.s.", "u.s.a.",
           "united states of america", "the united states"]),
  ("uk", ["united kingdom", "britain", "great britain", "england", "u.k."]),
  ("ussr", ["soviet union", "russia", "u.s.s.r."]),
  ("uae", ["united arab emirates", "u.a.e."]),
  ("prc", ["china", "peoples republic of china", "people\x27s republic of china"]),
  ("add", ["addition", "plus", "sum"]),
  ("subtract", ["subtraction", "minus", "difference"]),
  ("multiply", ["multiplication", "times", "product"]),
  ("divide", ["division", "quotient", "split"]),
  ("equals", ["equal", "is", "="]),
  ("percent", ["percentage", "%"]),
  ("infinity", ["infinite", "∞"]),
  ("pi", ["π", "3.14159", "3.14"]),
  ("h2o", ["water", "dihydrogen monoxide"]),
  ("co2", ["carbon dioxide"]),
  ("o2", ["oxygen", "dioxygen"]),
  ("n2", ["nitrogen", "dinitrogen"]),
  ("nacl", ["salt", "sodium chloride", "table salt"]),
  ("hcl", ["hydrochloric acid"]),
  ("h2so4", ["sulfuric acid", "sulphuric acid"]),
  ("naoh", ["sodium hydroxide", "lye", "caustic soda"]),
  ("dna", ["deoxyribonucleic acid"]),
  ("rna", ["ribonucleic acid"]),
  ("atp", ["adenosine triphosphate"]),
  ("c", ["speed of light", "299792458 m/s", "3e8 m/s"]),
  ("e=mc2", ["e=mc²", "mass energy equivalence", "einstein equation"]),
  ("km", ["kilometer", "kilometres", "kilometers"]),
  ("m", ["meter", "metre", "meters", "metres"]),
  ("cm", ["centimeter", "centimetre", "centimeters", "centimetres"]),
  ("mm", ["millimeter", "millimetre", "millimeters", "millimetres"]),
  ("kg", ["kilogram", "kilograms", "kilo", "kilos"]),
  ("g", ["gram", "grams"]),
  ("mg", ["milligram", "milligrams"]),
  ("l", ["liter", "litre", "liters", "litres"]),
  ("ml", ["milliliter", "millilitre", "milliliters", "millilitres"]),
  ("mi", ["mile", "miles"]),
  ("ft", ["foot", "feet"]),
  ("in", ["inch", "inches"]),
  ("lb", ["pound", "pounds", "lbs"]),
  ("oz", ["ounce", "ounces"]),
  ("sec", ["second", "seconds", "s"]),
  ("min", ["minute", "minutes"]),
  ("hr", ["hour", "hours", "h"]),
  ("yr", ["year", "years"]),
  ("bc", ["bce", "b.c.", "b.c.e.", "before christ", "before common era"]),
  ("ad", ["ce", "a.d.", "c.e.", "anno domini", "common era"]),
  ("n", ["north", "northern"]),
  ("s", ["south", "southern"]),
  ("e", ["east", "eastern"]),
  ("w", ["west", "western"]),
  ("ne", ["northeast", "north east", "north-east"]),
  ("nw", ["northwest", "north west", "north-west"]),
  ("se", ["southeast", "south east", "south-east"]),
  ("sw", ["southwest", "south west", "south-west"]),
  ("vs", ["versus", "against", "v.", "v"]),
  ("etc", ["et cetera", "and so on", "and so forth"]),
  ("ie", ["i.e.", "that is", "in other words"]),
  ("eg", ["e.g.", "for example", "for instance"]),
  ("ww1", ["world war 1", "world war i", "first world war", "wwi", "the great war"]),
  ("ww2", ["world war 2", "world war ii", "second world war", "wwii"]),
  ("definition", ["meaning", "def"]),
  ("example", ["instance", "eg", "e.g."]),
  ("true", ["yes", "correct", "t", "y"]),
  ("false", ["no", "incorrect", "f", "n", "wrong"])]

/-- The insertion sequence of `buildReverseLookup`: for each table entry in
order, `canonical → canonical` first, then each synonym → canonical.  A
later `Map.set` for the same key overwrites an earlier one. -/
def reversePairs : List (String × String) :=
  SYNONYMS.foldl
    (fun acc p =>
      acc ++ (jsToLower p.1, jsToLower p.1) :: p.2.map (fun s => (jsToLower s, jsToLower p.1)))
    []

/-- `REVERSE_LOOKUP.get key`: the value written by the last `set` for the
key, if any. -/
def reverseLookup (key : String) : Option String :=
  (reversePairs.reverse.find? (fun p => p.1 == key)).map (fun p => p.2)

/-- `getCanonical` from `synonyms.ts` (`REVERSE_LOOKUP.get(normalized) || null`). -/
def getCanonical (word : String) : Option String :=
  reverseLookup (normalizeForSynonym word)

/-- `areSynonyms` from `synonyms.ts`: equal after synonym normalization, or
both resolving to the same canonical form. -/
def areSynonyms (word1 word2 : String) : Bool :=
  if normalizeForSynonym word1 == normalizeForSynonym word2 then true
  else
    match getCanonical word1, getCanonical word2 with
    | some c1, some c2 => c1 == c2
    | _, _ => false

/-- Positional comparison of two equal-length sorted token lists: literal
equality or a synonym pair at each position (the `every` loop of
`checkWordOrderMatch` and the `allMatch` loop of `arePhraseSynonyms`). -/
def tokensMatch : List String → List String → Bool
  | [], [] => true
  | a :: as, b :: bs => (a == b || areSynonyms a b) && tokensMatch as bs
  | _, _ => false

/-- The stop-word set of `arePhraseSynonyms` in `synonyms.ts`: fifteen
words, including `is`, `are`, `was`, `were`. -/
def stopWords15 : List String :=
  ["the", "a", "an", "of", "in", "on", "at", "to", "for", "and", "or",
   "is", "are", "was", "were"]

/-- `arePhraseSynonyms` from `synonyms.ts`. -/
def arePhraseSynonyms (phrase1 phrase2 : String) : Bool :=
  if areSynonyms phrase1 phrase2 then true
  else
    let words1 := (jsSplit (normalizeForSynonym phrase1)).filter (fun w => !w.isEmpty)
    let words2 := (jsSplit (normalizeForSynonym phrase2)).filter (fun w => !w.isEmpty)
    if words1.length == 1 && words2.length == 1 then false
    else
      let meaningful1 := sortStrs (words1.filter (fun w => !(stopWords15.contains w)))
      let meaningful2 := sortStrs (words2.filter (fun w => !(stopWords15.contains w)))
      if meaningful1.length == meaningful2.length && meaningful1.length != 0 then
        tokensMatch meaningful1 meaningful2
      else false

/-- The greedy word-matching loop of `getSynonymSimilarity`: each word of
the first phrase consumes the first still-unused equal-or-synonymous word
of the second (`usedIndices` modelled by erasing the consumed word). -/
def greedyMatchCount : List String → List String → Nat
  | [], _ => 0
  | w :: ws, avail =>
    match avail.findIdx? (fun v => w == v || areSynonyms w v) with
    | some j => 1 + greedyMatchCount ws (avail.eraseIdx j)
    | none => greedyMatchCount ws avail

/-- `getSynonymSimilarity` from `synonyms.ts`. -/
def getSynonymSimilarity (text1 text2 : String) : ℚ :=
  if arePhraseSynonyms text1 text2 then 0.95
  else
    let words1 := (jsSplit (normalizeForSynonym text1)).filter (fun w => !w.isEmpty)
    let words2 := (jsSplit (normalizeForSynonym text2)).filter (fun w => !w.isEmpty)
    if words1.isEmpty || words2.isEmpty then 0
    else (greedyMatchCount words1 words2 : ℚ) / ((max words1.length words2.length : Nat) : ℚ)

/-! ## Evaluator (`src/utils/evaluator.ts`) -/

/-- The evaluator's match classification. -/
inductive MatchType where
  | exact | synonym | word_order | fuzzy | ai | none
deriving DecidableEq

/-- The result of one `calculateSimilarity` comparison. -/
structure MatchResult where
  score : ℚ
  matchType : MatchType
deriving DecidableEq

/-- `EvaluationResult` from the shared types. -/
structure EvaluationResult where
  score : ℚ
  feedback : String
  isCorrect : Bool
  matchType : MatchType
  aiUsed : Bool
deriving DecidableEq

/-- `getAllowedTypos` from `evaluator.ts`. -/
def getAllowedTypos (wordLength : Nat) : Nat :=
  if wordLength < 4 then 0 else if wordLength < 6 then 1 else 2

/-- `isShortAnswerMatch` from `evaluator.ts`: single-word comparisons of
short answers (at most 4 words each side) with typo tolerance. -/
def isShortAnswerMatch (response expected : String) : Bool :=
  let normResp := normalizeText response
  let normExp := normalizeText expected
  let respWords := jsSplit normResp
  let expWords := jsSplit normExp
  if respWords.length > 4 || expWords.length > 4 then false
  else if respWords.length == 1 && expWords.length == 1 then
    levenshteinDistance normResp normExp ≤ getAllowedTypos normExp.length
  else false

/-- The stop-word set of `checkWordOrderMatch` in `evaluator.ts`: eleven
words; unlike the resolver's set it does NOT contain `is`, `are`, `was`,
`were`. -/
def stopWords11 : List String :=
  ["the", "a", "an", "of", "in", "on", "at", "to", "for", "and", "or"]

/-- `checkWordOrderMatch` from `evaluator.ts`: same meaningful words in any
order, allowing per-token synonyms. -/
def checkWordOrderMatch (response expected : String) : Bool :=
  let respWords := sortStrs ((jsSplit (normalizeText response)).filter
    (fun w => !w.isEmpty && !(stopWords11.contains w)))
  let expWords := sortStrs ((jsSplit (normalizeText expected)).filter
    (fun w => !w.isEmpty && !(stopWords11.contains w)))
  if respWords.isEmpty || expWords.isEmpty then false
  else if respWords.length == expWords.length then tokensMatch respWords expWords
  else false

/-- `calculateSimilarity` from `evaluator.ts`: the strategy cascade, first
qualifying strategy wins. -/
def calculateSimilarity (response expected : String) : MatchResult :=
  let nr := normalizeText response
  let ne := normalizeText expected
  if nr == ne then ⟨1, .exact⟩
  else if arePhraseSynonyms response expected then ⟨0.95, .synonym⟩
  else if checkWordOrderMatch response expected then ⟨0.9, .word_order⟩
  else if isShortAnswerMatch response expected then ⟨0.9, .fuzzy⟩
  else if jsIncludes nr ne || jsIncludes ne nr then
    ⟨0.6 + (((min nr.length ne.length : Nat) : ℚ) / ((max nr.length ne.length : Nat) : ℚ)) * 0.2,
      .fuzzy⟩
  else
    let synonymScore := getSynonymSimilarity response expected
    if synonymScore ≥ 0.7 then ⟨synonymScore, .synonym⟩
    else
      let d := levenshteinDistance nr ne
      let maxLength := max nr.length ne.length
      if maxLength == 0 then ⟨0, .none⟩
      else
        let fuzzyScore := max 0 (1 - (d : ℚ) / (maxLength : ℚ))
        ⟨fuzzyScore, if fuzzyScore ≥ 0.5 then .fuzzy else .none⟩

/-- `formatMatchType` from `evaluator.ts` (the `default` branch returns the
enum's own string value). -/
def formatMatchType : MatchType → String
  | .synonym => "synonym match"
  | .word_order => "word order match"
  | .fuzzy => "close match"
  | .ai => "AI verified"
  | .exact => "exact"
  | .none => "none"

/-- The best-candidate fold of `evaluateAnswer`: keep the strictly highest
score seen so far together with its candidate and match type. -/
def bestOf (response : String) :
    List String → ℚ × String × MatchType → ℚ × String × MatchType
  | [], best => best
  | e :: rest, (bs, bm, bt) =>
    let r := calculateSimilarity response e
    if r.score > bs then bestOf response rest (r.score, e, r.matchType)
    else bestOf response rest (bs, bm, bt)

/-- `evaluateAnswer` from `evaluator.ts` (the synchronous evaluator). -/
def evaluateAnswer (response : String) (expectedAnswers : List String) :
    EvaluationResult :=
  if jsTrim response == "" then ⟨0, "No answer provided", false, .none, false⟩
  else
    let best := bestOf response expectedAnswers (0, "", .none)
    let bestScore := best.1
    let bestMatch := best.2.1
    let bestMatchType := best.2.2
    if bestScore ≥ 0.9 then
      let matchInfo :=
        if bestMatchType ≠ .exact then " (" ++ formatMatchType bestMatchType ++ ")" else ""
      ⟨bestScore, "Correct!" ++ matchInfo, true, bestMatchType, false⟩
    else if bestScore ≥ 0.6 then
      ⟨bestScore, "Close! Expected: \"" ++ bestMatch ++ "\"", false, bestMatchType, false⟩
    else
      ⟨bestScore, "Incorrect. Expected: \"" ++ bestMatch ++ "\"", false, bestMatchType, false⟩

/-- Modelled from the spec: the word-order strategy as §4.2 of the spec
words it, with the SPEC's fifteen stop words (`is`, `are`, `was`, `were`
included).  Defined only to compare the spec's wording against the code's
`checkWordOrderMatch`, whose stop-word set has eleven words. -/
def specWordOrderMatch (response expected : String) : Bool :=
  let respWords := sortStrs ((jsSplit (normalizeText response)).filter
    (fun w => !w.isEmpty && !(stopWords15.contains w)))
  let expWords := sortStrs ((jsSplit (normalizeText expected)).filter
    (fun w => !w.isEmpty && !(stopWords15.contains w)))
  if respWords.isEmpty || expWords.isEmpty then false
  else if respWords.length == expWords.length then tokensMatch respWords expWords
  else false

/-- The comparison of `response` against `expected` reaches the
Levenshtein fallback (strategy 7): every earlier strategy of
`calculateSimilarity` fails. -/
def fallsThroughToLevenshtein (response expected : String) : Prop :=
  (normalizeText response == normalizeText expected) = false
  ∧ arePhraseSynonyms response expected = false
  ∧ checkWordOrderMatch response expected = false
  ∧ isShortAnswerMatch response expected = false
  ∧ (jsIncludes (normalizeText response) (normalizeText expected)
      || jsIncludes (normalizeText expected) (normalizeText response)) = false
  ∧ getSynonymSimilarity response expected < 0.7

/-! ## Theorems -/

/-- The empty character list is an infix of every list. -/
theorem isInfixChars_nil (l : List Char) : isInfixChars [] l = true := by
  cases l with
  | nil => rfl
  | cons y ys => simp [isInfixChars, isPrefixChars]

/-- A non-empty string has positive length. -/
theorem str_length_pos {s : String} (h : s ≠ "") : 0 < s.length := by
  cases s with
  | mk data =>
    cases data with
    | nil => exact absurd (by decide) h
    | cons c cs => simp [String.length]

/-- A string of length zero is the empty string. -/
theorem str_eq_empty_of_length_zero {s : String} (h : s.length = 0) : s = "" := by
  cases s with
  | mk data =>
    cases data with
    | nil => decide
    | cons c cs => simp [String.length] at h

/-- With an empty `str1`, every matrix row of `levenshteinDistance` is the
singleton holding its row index. -/
theorem levRows_nil (cs : List Char) (j : Nat) :
    levRows [] cs [j] (j + 1) = [j + cs.length] := by
  induction cs generalizing j with
  | nil => simp [levRows]
  | cons c rest ih =>
    rw [levRows, show levRow c [] [j] (j + 1) = [j + 1] from by simp [levRow, levRowGo],
      ih (j + 1)]
    simp
    omega

/-- `levenshteinDistance("", s)` is the length of `s`. -/
theorem levenshteinDistance_empty_left (s : String) :
    levenshteinDistance "" s = s.length := by
  have h : levRows [] s.data [0] (0 + 1) = [0 + s.data.length] := levRows_nil s.data 0
  simp only [Nat.zero_add] at h
  show (levRows [] s.data (List.range 1) 1).getLastD 0 = s.length
  rw [show List.range 1 = [0] from rfl, h]
  rfl

/-- The best-candidate fold of `evaluateAnswer` on a single-element list,
when the candidate's score is positive. -/
theorem bestOf_single (r e : String) (s : ℚ) (t : MatchType)
    (hcs : calculateSimilarity r e = ⟨s, t⟩) (hs : 0 < s) :
    bestOf r [e] (0, "", MatchType.none) = (s, e, t) := by
  simp [bestOf, hcs, hs]

/-- `evaluateAnswer` on a single candidate whose score is at least 0.9 with
a non-exact match type. -/
theorem evaluateAnswer_single_correct (r e : String) (s : ℚ) (t : MatchType)
    (htrim : jsTrim r ≠ "") (hcs : calculateSimilarity r e = ⟨s, t⟩)
    (hs : 0.9 ≤ s) (hx : t ≠ MatchType.exact) :
    evaluateAnswer r [e]
      = ⟨s, "Correct!" ++ (" (" ++ formatMatchType t ++ ")"), true, t, false⟩ := by
  have h0 : (0 : ℚ) < s := lt_of_lt_of_le (by norm_num) hs
  simp [evaluateAnswer, bestOf_single r e s t hcs h0, htrim, hs, hx]

/-- `evaluateAnswer` on a single candidate whose score lands in the
"Close!" band `[0.6, 0.9)`. -/
theorem evaluateAnswer_single_close (r e : String) (s : ℚ) (t : MatchType)
    (htrim : jsTrim r ≠ "") (hcs : calculateSimilarity r e = ⟨s, t⟩)
    (h0 : 0 < s) (h6 : 0.6 ≤ s) (h9 : ¬ (0.9 ≤ s)) :
    evaluateAnswer r [e]
      = ⟨s, "Close! Expected: \"" ++ e ++ "\"", false, t, false⟩ := by
  simp [evaluateAnswer, bestOf_single r e s t hcs h0, htrim, h6, h9]

/-- `evaluateAnswer` on a single candidate whose positive score falls
below 0.6. -/
theorem evaluateAnswer_single_low (r e : String) (s : ℚ) (t : MatchType)
    (htrim : jsTrim r ≠ "") (hcs : calculateSimilarity r e = ⟨s, t⟩)
    (h0 : 0 < s) (h6 : ¬ (0.6 ≤ s)) :
    evaluateAnswer r [e]
      = ⟨s, "Incorrect. Expected: \"" ++ e ++ "\"", false, t, false⟩ := by
  have h9 : ¬ (0.9 ≤ s) := fun h => h6 (le_trans (by norm_num) h)
  simp [evaluateAnswer, bestOf_single r e s t hcs h0, htrim, h6, h9]

/-- C6: for every expected-answer list, a response that trims to the empty
string short-circuits `evaluateAnswer` to score 0, `isCorrect = false`,
match type `none` and feedback exactly "No answer provided". -/
theorem evaluateAnswer_no_answer (response : String) (expectedAnswers : List String)
    (h : jsTrim response = "") :
    evaluateAnswer response expectedAnswers
      = ⟨0, "No answer provided", false, MatchType.none, false⟩ := by
  simp [evaluateAnswer, h]

/-- C6, witness: a whitespace-only response at a concrete input. -/
theorem evaluateAnswer_no_answer_witness :
    evaluateAnswer "   " ["x"]
      = ⟨0, "No answer provided", false, MatchType.none, false⟩ :=
  evaluateAnswer_no_answer "   " ["x"] (by decide)

/-- The default branch of `qualityToSM2`: any string other than the three
recognized non-default cases maps to grade 1. -/
theorem qualityToSM2_default (q : String)
    (h1 : q ≠ "easy") (h2 : q ≠ "good") (h3 : q ≠ "hard") :
    qualityToSM2 q = 1 := by
  simp [qualityToSM2, h1, h2, h3]

theorem qualityToSM2_again : qualityToSM2 "again" = 1 := by simp [qualityToSM2]

theorem qualityToSM2_hard : qualityToSM2 "hard" = 3 := by simp [qualityToSM2]

theorem qualityToSM2_good : qualityToSM2 "good" = 4 := by simp [qualityToSM2]

theorem qualityToSM2_banana : qualityToSM2 "banana" = 1 := by simp [qualityToSM2]

/-- C1, counterexample: `updateSchedule` does not reject the unrecognized
quality string `"banana"`; it silently maps it to the default grade and
returns the very schedule it returns for `"again"`. -/
theorem unrecognized_quality_silently_defaults :
    updateSchedule ⟨some 2.5, some 10, some 0⟩ "banana" 0
      = updateSchedule ⟨some 2.5, some 10, some 0⟩ "again" 0
    ∧ updateSchedule ⟨some 2.5, some 10, some 0⟩ "banana" 0
      = ⟨1.96, 1, 1, 86400000⟩ := by
  refine ⟨?_, ?_⟩ <;>
    norm_num [updateSchedule, qualityToSM2_banana, qualityToSM2_again,
      dayjsAddDays, Schedule.mk.injEq]

/-- C1, amended: `updateSchedule` has no failure path.  `qualityToSM2`
maps every unrecognized quality string to numeric grade 1 (the `default`
case), so `updateSchedule` returns exactly the schedule it would return
for quality `"again"`. -/
theorem updateSchedule_unrecognized_as_again (card : Card) (clockNow : ℚ)
    (q : String) (h1 : q ≠ "easy") (h2 : q ≠ "good") (h3 : q ≠ "hard") :
    updateSchedule card q clockNow = updateSchedule card "again" clockNow := by
  unfold updateSchedule
  rw [qualityToSM2_default q h1 h2 h3, show qualityToSM2 "again" = 1 from rfl]

/-- C1, witness for the amended theorem at the concrete quality `"banana"`. -/
theorem updateSchedule_unrecognized_as_again_witness :
    updateSchedule ⟨some 2.5, some 10, some 0⟩ "banana" 0
      = updateSchedule ⟨some 2.5, some 10, some 0⟩ "again" 0 :=
  updateSchedule_unrecognized_as_again ⟨some 2.5, some 10, some 0⟩ 0 "banana"
    (by decide) (by decide) (by decide)

/-- C2, counterexample: quality `"hard"` maps to numeric grade 3, so
`q < 3` is false and `"hard"` does not lapse: from prior state
`{ease 2.5, interval 10, lapses 0}` it returns `interval_days = 25`
(not 1) and `lapses = 0` (not 1). -/
theorem hard_does_not_lapse :
    (updateSchedule ⟨some 2.5, some 10, some 0⟩ "hard" 0).interval_days = 25
    ∧ (updateSchedule ⟨some 2.5, some 10, some 0⟩ "hard" 0).lapses = 0 := by
  refine ⟨?_, ?_⟩ <;> norm_num [updateSchedule, qualityToSM2_hard]

/-- C2, amended: only `"again"` (grade 1) maps to a numeric grade below 3;
for quality `"again"`, `updateSchedule` always returns `interval_days = 1`
and `lapses` equal to the prior lapses (defaulted to 0) plus exactly 1;
`"hard"` maps to grade 3 and takes the non-lapse branch. -/
theorem updateSchedule_again_lapse (card : Card) (clockNow : ℚ) :
    (updateSchedule card "again" clockNow).interval_days = 1
    ∧ (updateSchedule card "again" clockNow).lapses = card.lapses.getD 0 + 1 := by
  constructor <;> rfl

/-- C3: for every prior card state, clock value and quality among
`again`, `hard`, `good`, `easy`, the ease returned by `updateSchedule` is
at least 1.3 (the code clamps `ease` up to 1.3 unconditionally). -/
theorem updateSchedule_ease_floor (card : Card) (clockNow : ℚ) (q : String)
    (h : q = "again" ∨ q = "hard" ∨ q = "good" ∨ q = "easy") :
    1.3 ≤ (updateSchedule card q clockNow).ease := by
  unfold updateSchedule
  dsimp only
  split_ifs with h1 <;> [norm_num; linarith [not_lt.mp h1]]

/-- C3, witness: the ease floor at a concrete prior state with very low
prior ease and quality `"again"`. -/
theorem updateSchedule_ease_floor_witness :
    1.3 ≤ (updateSchedule ⟨some 0.5, some 1, some 0⟩ "again" 0).ease :=
  updateSchedule_ease_floor ⟨some 0.5, some 1, some 0⟩ 0 "again" (Or.inl rfl)

/-- C4, counterexample: `updateSchedule`'s output is not determined by
`(priorState, quality)` — the code's only explicit parameters — because the
function reads the global clock internally: two calls with identical prior
state and quality but different internal clock reads return different
schedules (their `due_at` differs). -/
theorem updateSchedule_depends_on_internal_clock :
    updateSchedule ⟨some 2.5, some 1, some 0⟩ "good" 0
      ≠ updateSchedule ⟨some 2.5, some 1, some 0⟩ "good" 86400000 := by
  intro h
  have hdue := congrArg Schedule.due_at h
  norm_num [updateSchedule, qualityToSM2_good, dayjsAddDays] at hdue

/-- C4, amended: `updateSchedule` takes only `(priorState, quality)` and
reads the global clock internally; the `ease`, `interval_days` and
`lapses` it returns are deterministic given prior state and quality alone,
and `due_at` equals the internally read clock value plus
`interval_days` days. -/
theorem updateSchedule_clock_dependence (card : Card) (q : String) (c1 c2 : ℚ) :
    (updateSchedule card q c1).ease = (updateSchedule card q c2).ease
    ∧ (updateSchedule card q c1).interval_days = (updateSchedule card q c2).interval_days
    ∧ (updateSchedule card q c1).lapses = (updateSchedule card q c2).lapses
    ∧ (updateSchedule card q c1).due_at
        = c1 + (updateSchedule card q c1).interval_days * 86400000 :=
  ⟨rfl, rfl, rfl, rfl⟩

/-- C8: the known synonym pairs "USA"/"United States", "H2O"/"water" and
"one"/"1" all score at least 0.9, classify with matchType `synonym`, and
count as correct. -/
theorem known_synonym_pairs_correct :
    ((evaluateAnswer "USA" ["United States"]).score ≥ 0.9
      ∧ (evaluateAnswer "USA" ["United States"]).matchType = MatchType.synonym
      ∧ (evaluateAnswer "USA" ["United States"]).isCorrect = true)
    ∧ ((evaluateAnswer "H2O" ["water"]).score ≥ 0.9
      ∧ (evaluateAnswer "H2O" ["water"]).matchType = MatchType.synonym
      ∧ (evaluateAnswer "H2O" ["water"]).isCorrect = true)
    ∧ ((evaluateAnswer "one" ["1"]).score ≥ 0.9
      ∧ (evaluateAnswer "one" ["1"]).matchType = MatchType.synonym
      ∧ (evaluateAnswer "one" ["1"]).isCorrect = true) := by
  have k1 : calculateSimilarity "USA" "United States" = ⟨0.95, MatchType.synonym⟩ := by
    have h1 : (normalizeText "USA" == normalizeText "United States") = false := by decide
    have h2 : arePhraseSynonyms "USA" "United States" = true := by decide
    simp [calculateSimilarity, h1, h2]
  have k2 : calculateSimilarity "H2O" "water" = ⟨0.95, MatchType.synonym⟩ := by
    have h1 : (normalizeText "H2O" == normalizeText "water") = false := by decide
    have h2 : arePhraseSynonyms "H2O" "water" = true := by decide
    simp [calculateSimilarity, h1, h2]
  have k3 : calculateSimilarity "one" "1" = ⟨0.95, MatchType.synonym⟩ := by
    have h1 : (normalizeText "one" == normalizeText "1") = false := by decide
    have h2 : arePhraseSynonyms "one" "1" = true := by decide
    simp [calculateSimilarity, h1, h2]
  have e1 := evaluateAnswer_single_correct "USA" "United States" 0.95 MatchType.synonym
    (by decide) k1 (by norm_num) (by decide)
  have e2 := evaluateAnswer_single_correct "H2O" "water" 0.95 MatchType.synonym
    (by decide) k2 (by norm_num) (by decide)
  have e3 := evaluateAnswer_single_correct "one" "1" 0.95 MatchType.synonym
    (by decide) k3 (by norm_num) (by decide)
  rw [e1, e2, e3]
  norm_num

/-- C5, counterexample: the spec's fifteen-word stop set (with `is`) says
"u.s is big" vs "big us" is a word-order match (and neither the exact nor
the full-phrase-synonym strategy applies), yet `evaluateAnswer` does not
classify it as `word_order` with score 0.9 — the code's stop set lacks
`is`, so the token counts differ and the comparison falls through to the
Levenshtein fallback. -/
theorem word_order_fifteen_stop_words_refuted :
    specWordOrderMatch "u.s is big" "big us" = true
    ∧ (normalizeText "u.s is big" == normalizeText "big us") = false
    ∧ arePhraseSynonyms "u.s is big" "big us" = false
    ∧ (evaluateAnswer "u.s is big" ["big us"]).matchType ≠ MatchType.word_order
    ∧ (evaluateAnswer "u.s is big" ["big us"]).score ≠ 0.9 := by
  have hsyn : getSynonymSimilarity "u.s is big" "big us" = 1/3 := by
    have hp : arePhraseSynonyms "u.s is big" "big us" = false := by decide
    have hw1 : (jsSplit (normalizeForSynonym "u.s is big")).filter (fun w => !w.isEmpty)
        = ["u.s", "is", "big"] := by decide
    have hw2 : (jsSplit (normalizeForSynonym "big us")).filter (fun w => !w.isEmpty)
        = ["big", "us"] := by decide
    have hg : greedyMatchCount ["u.s", "is", "big"] ["big", "us"] = 1 := by decide
    simp [getSynonymSimilarity, hp, hw1, hw2, hg]
  have hcs : calculateSimilarity "u.s is big" "big us" = ⟨2/9, MatchType.none⟩ := by
    have h1 : (normalizeText "u.s is big" == normalizeText "big us") = false := by decide
    have hp : arePhraseSynonyms "u.s is big" "big us" = false := by decide
    have h3 : checkWordOrderMatch "u.s is big" "big us" = false := by decide
    have h4 : isShortAnswerMatch "u.s is big" "big us" = false := by decide
    have h5 : (jsIncludes (normalizeText "u.s is big") (normalizeText "big us")
        || jsIncludes (normalizeText "big us") (normalizeText "u.s is big")) = false := by decide
    have hlev : levenshteinDistance (normalizeText "u.s is big") (normalizeText "big us") = 7 := by
      decide
    have hl1 : (normalizeText "u.s is big").length = 9 := by decide
    have hl2 : (normalizeText "big us").length = 6 := by decide
    rw [calculateSimilarity]
    simp [h1, hp, h3, h4, h5, hsyn, hlev, hl1, hl2]
    norm_num [max_def, MatchResult.mk.injEq]
  have hfull : evaluateAnswer "u.s is big" ["big us"]
      = ⟨2/9, "Incorrect. Expected: \"big us\"", false, MatchType.none, false⟩ := by
    have h := evaluateAnswer_single_low "u.s is big" "big us" (2/9) MatchType.none
      (by decide) hcs (by norm_num) (by norm_num)
    rw [show ("Incorrect. Expected: \"" ++ "big us" ++ "\"" : String)
        = "Incorrect. Expected: \"big us\"" from by decide] at h
    exact h
  refine ⟨by decide, by decide, by decide, ?_, ?_⟩
  · rw [hfull]; decide
  · rw [hfull]; norm_num

/-- C5, amended: with the stop-word set the code actually uses — the
eleven words the, a, an, of, in, on, at, to, for, and, or, without
is/are/was/were — whenever the remaining tokens match positionally once sorted (allowing
per-token synonyms, i.e. `checkWordOrderMatch` holds) and neither the
exact nor the full-phrase-synonym strategy applies, `evaluateAnswer`
scores the candidate 0.9 with matchType `word_order`. -/
theorem evaluateAnswer_word_order (response expected : String)
    (htrim : jsTrim response ≠ "")
    (h1 : (normalizeText response == normalizeText expected) = false)
    (h2 : arePhraseSynonyms response expected = false)
    (h3 : checkWordOrderMatch response expected = true) :
    evaluateAnswer response [expected]
      = ⟨0.9, "Correct! (word order match)", true, MatchType.word_order, false⟩ := by
  have hcs : calculateSimilarity response expected = ⟨0.9, MatchType.word_order⟩ := by
    simp [calculateSimilarity, h1, h2, h3]
  have e := evaluateAnswer_single_correct response expected 0.9 MatchType.word_order htrim hcs
    (by norm_num) (by decide)
  rw [show ("Correct!" ++ (" (" ++ formatMatchType MatchType.word_order ++ ")") : String)
      = "Correct! (word order match)" from by decide] at e
  exact e

/-- C5, witness for the amended theorem: "u.s gold" vs "gold usa" is a
word-order match ("us" and "usa" are synonyms) that is neither exact nor a
full-phrase synonym (the synonym normalization keeps the period of "u.s",
which resolves to no canonical form). -/
theorem evaluateAnswer_word_order_witness :
    evaluateAnswer "u.s gold" ["gold usa"]
      = ⟨0.9, "Correct! (word order match)", true, MatchType.word_order, false⟩ :=
  evaluateAnswer_word_order "u.s gold" "gold usa" (by decide) (by decide) (by decide) (by decide)

/-- With an empty normalized response, `checkWordOrderMatch` has no
response tokens and returns false. -/
theorem checkWordOrderMatch_empty_resp (response expected : String)
    (hnr : normalizeText response = "") :
    checkWordOrderMatch response expected = false := by
  unfold checkWordOrderMatch
  rw [hnr]
  have h0 : sortStrs ((jsSplit ("" : String)).filter
      (fun w => !w.isEmpty && !(stopWords11.contains w))) = ([] : List String) := by decide
  simp only [h0]
  simp

/-- With an empty normalized response and a non-empty normalized expected
answer, the short-answer typo strategy never fires: the edit distance from
the empty string is the expected answer's full length, which always
exceeds the typo allowance. -/
theorem isShortAnswerMatch_empty_resp (response expected : String)
    (hnr : normalizeText response = "") (hne : normalizeText expected ≠ "") :
    isShortAnswerMatch response expected = false := by
  unfold isShortAnswerMatch
  rw [hnr]
  simp only [show jsSplit ("" : String) = [""] from by decide]
  by_cases h4 : (jsSplit (normalizeText expected)).length > 4
  · simp [h4]
  · by_cases hone : (jsSplit (normalizeText expected)).length = 1
    · have hlev := levenshteinDistance_empty_left (normalizeText expected)
      have hpos := str_length_pos hne
      simp [h4, hone, hlev]
      unfold getAllowedTypos
      split_ifs <;> omega
    · simp [h4, hone]

/-- A response whose normalization is empty, against an expected answer
whose normalization is not, reaches the substring strategy (the empty
string is contained in every string) and scores exactly 0.6 as `fuzzy`. -/
theorem punctuation_only_calcSim (response expected : String)
    (hnr : normalizeText response = "") (hne : normalizeText expected ≠ "")
    (hps : arePhraseSynonyms response expected = false) :
    calculateSimilarity response expected = ⟨0.6, MatchType.fuzzy⟩ := by
  have h3 := checkWordOrderMatch_empty_resp response expected hnr
  have h4 := isShortAnswerMatch_empty_resp response expected hnr hne
  have h5 : jsIncludes (normalizeText expected) "" = true := by
    simp [jsIncludes, show ("" : String).data = [] from rfl, isInfixChars_nil]
  rw [calculateSimilarity]
  simp [Ne.symm hne, hps, h3, h4, h5, hnr]

/-- C10: a response with visible characters but an empty normalization
(e.g. all punctuation) is not treated as "No answer provided"; against any
expected answer with non-empty normalization that is not a phrase synonym
of it, `evaluateAnswer` matches the substring strategy and returns exactly
score 0.6, matchType `fuzzy`, and a "Close! Expected: …" feedback. -/
theorem punctuation_only_scores_fuzzy (response expected : String)
    (htrim : jsTrim response ≠ "")
    (hnr : normalizeText response = "")
    (hne : normalizeText expected ≠ "")
    (hps : arePhraseSynonyms response expected = false) :
    evaluateAnswer response [expected]
      = ⟨0.6, "Close! Expected: \"" ++ expected ++ "\"", false, MatchType.fuzzy, false⟩ :=
  evaluateAnswer_single_close response expected 0.6 MatchType.fuzzy htrim
    (punctuation_only_calcSim response expected hnr hne hps)
    (by norm_num) (by norm_num) (by norm_num)

/-- C10, witness: the punctuation-only response "???" against expected
"x". -/
theorem punctuation_only_scores_fuzzy_witness :
    evaluateAnswer "???" ["x"]
      = ⟨0.6, "Close! Expected: \"x\"", false, MatchType.fuzzy, false⟩ := by
  have h := punctuation_only_scores_fuzzy "???" "x" (by decide) (by decide) (by decide) (by decide)
  rw [show ("Close! Expected: \"" ++ "x" ++ "\"" : String)
      = "Close! Expected: \"x\"" from by decide] at h
  exact h

/-- If the normalized strings differ, at least one of them is non-empty,
so the Levenshtein `maxLength` is positive. -/
theorem max_len_pos_of_ne (r e : String)
    (h : (normalizeText r == normalizeText e) = false) :
    0 < max (normalizeText r).length (normalizeText e).length := by
  rcases Nat.eq_zero_or_pos (max (normalizeText r).length (normalizeText e).length) with h0 | h0
  · exfalso
    have hmax := Nat.max_eq_zero_iff.mp h0
    have hr : normalizeText r = "" := str_eq_empty_of_length_zero hmax.1
    have he : normalizeText e = "" := str_eq_empty_of_length_zero hmax.2
    rw [hr, he] at h
    simp at h
  · exact h0

/-- On a fall-through comparison, `calculateSimilarity`'s score is the
Levenshtein fallback formula `max 0 (1 - distance / maxLength)`. -/
theorem calcSim_fallback_score (response expected : String)
    (hf : fallsThroughToLevenshtein response expected)
    (hL : 0 < max (normalizeText response).length (normalizeText expected).length) :
    (calculateSimilarity response expected).score
      = max 0 (1 - (levenshteinDistance (normalizeText response) (normalizeText expected) : ℚ)
          / ((max (normalizeText response).length (normalizeText expected).length : Nat) : ℚ)) := by
  obtain ⟨h1, h2, h3, h4, h5, h6⟩ := hf
  have hL' : (max (normalizeText response).length (normalizeText expected).length == 0) = false :=
    beq_eq_false_iff_ne.mpr (Nat.pos_iff_ne_zero.mp hL)
  rw [calculateSimilarity]
  simp [h1, h2, h3, h4, h5, not_le.mpr h6, hL']

/-- C9: the Levenshtein fallback is monotonic in edit distance — for a
fixed expected string and two responses of equal normalized length that
both fall through to the fallback strategy, the response with strictly
smaller edit distance never scores lower. -/
theorem levenshtein_fallback_monotonic (e r1 r2 : String)
    (hf1 : fallsThroughToLevenshtein r1 e) (hf2 : fallsThroughToLevenshtein r2 e)
    (hlen : (normalizeText r1).length = (normalizeText r2).length)
    (hd : levenshteinDistance (normalizeText r1) (normalizeText e)
        < levenshteinDistance (normalizeText r2) (normalizeText e)) :
    (calculateSimilarity r2 e).score ≤ (calculateSimilarity r1 e).score := by
  have hL1 : 0 < max (normalizeText r1).length (normalizeText e).length :=
    max_len_pos_of_ne r1 e hf1.1
  have hL2 : 0 < max (normalizeText r2).length (normalizeText e).length :=
    max_len_pos_of_ne r2 e hf2.1
  rw [calcSim_fallback_score r1 e hf1 hL1, calcSim_fallback_score r2 e hf2 hL2, hlen]
  have hLpos : (0 : ℚ) < ((max (normalizeText r2).length (normalizeText e).length : Nat) : ℚ) := by
    exact_mod_cast hL2
  have hdd : (levenshteinDistance (normalizeText r1) (normalizeText e) : ℚ)
      ≤ (levenshteinDistance (normalizeText r2) (normalizeText e) : ℚ) := by
    exact_mod_cast hd.le
  have hdiv := (div_le_div_iff_of_pos_right hLpos).mpr hdd
  exact max_le_max le_rfl (sub_le_sub_left hdiv 1)

/-- The synonym word-similarity of "abd" against "abc" (no word matches). -/
theorem synSim_abd_abc : getSynonymSimilarity "abd" "abc" = 0 := by
  have hp : arePhraseSynonyms "abd" "abc" = false := by decide
  have hw1 : (jsSplit (normalizeForSynonym "abd")).filter (fun w => !w.isEmpty) = ["abd"] := by
    decide
  have hw2 : (jsSplit (normalizeForSynonym "abc")).filter (fun w => !w.isEmpty) = ["abc"] := by
    decide
  have hg : greedyMatchCount ["abd"] ["abc"] = 0 := by decide
  simp [getSynonymSimilarity, hp, hw1, hw2, hg]

/-- The synonym word-similarity of "xyz" against "abc" (no word matches). -/
theorem synSim_xyz_abc : getSynonymSimilarity "xyz" "abc" = 0 := by
  have hp : arePhraseSynonyms "xyz" "abc" = false := by decide
  have hw1 : (jsSplit (normalizeForSynonym "xyz")).filter (fun w => !w.isEmpty) = ["xyz"] := by
    decide
  have hw2 : (jsSplit (normalizeForSynonym "abc")).filter (fun w => !w.isEmpty) = ["abc"] := by
    decide
  have hg : greedyMatchCount ["xyz"] ["abc"] = 0 := by decide
  simp [getSynonymSimilarity, hp, hw1, hw2, hg]

/-- C9, witness: against expected "abc", the response "abd" (distance 1)
scores at least as high as "xyz" (distance 3); both are fall-through
comparisons of normalized length 3. -/
theorem levenshtein_fallback_monotonic_witness :
    (calculateSimilarity "xyz" "abc").score ≤ (calculateSimilarity "abd" "abc").score :=
  levenshtein_fallback_monotonic "abc" "abd" "xyz"
    ⟨by decide, by decide, by decide, by decide, by decide, by rw [synSim_abd_abc]; norm_num⟩
    ⟨by decide, by decide, by decide, by decide, by decide, by rw [synSim_xyz_abc]; norm_num⟩
    (by decide) (by decide)

/-- C7: Scenario B — from prior state `{ease 2.5, interval_days 10,
lapses 0}` with quality `"again"` (grade 1), `updateSchedule` returns
`lapses = 1`, `interval_days = 1` and `ease = 2.5 − 0.54 = 1.96` exactly,
for every clock value. -/
theorem updateSchedule_scenarioB (clockNow : ℚ) :
    (updateSchedule ⟨some 2.5, some 10, some 0⟩ "again" clockNow).lapses = 1
    ∧ (updateSchedule ⟨some 2.5, some 10, some 0⟩ "again" clockNow).interval_days = 1
    ∧ (updateSchedule ⟨some 2.5, some 10, some 0⟩ "again" clockNow).ease = 1.96 := by
  refine ⟨?_, ?_, ?_⟩ <;> norm_num [updateSchedule, qualityToSM2_again]

end Leit
